import Mathlib

/-!
Shallow embedding of `src/get_diff.py` (Git Conflict Detector).

The Python module defines a status enumeration (`FileStatus`), a change
record (`FileChange`) with two constructors (`from_git`, `from_github`),
a local diff parser (`get_modified_files_local`), a remote compare parser
(`get_modified_files_remote`), and a conflict-detection loop in `main`.

Python exceptions are modelled by an explicit error type `PyError`; every
fallible Python function becomes a Lean function into `Except PyError _`.
Subprocess and HTTP calls are external collaborators: the pure parsing
logic is embedded with the raw command output / decoded JSON response as
an explicit argument.
-/

deriving instance DecidableEq for Except

namespace GetDiff

/-- Errors raised by the Python code.  `valueError` carries the message
string built by the corresponding `raise ValueError(...)`; `indexError`
models the `IndexError` raised by `status[0]` on an empty string;
`assertionError` models a failed bare `assert`; `runtimeError` models the
`RuntimeError` wrappers that re-raise parse failures. -/
inductive PyError where
  | valueError (msg : String)
  | indexError
  | assertionError
  | runtimeError (msg : String)
deriving DecidableEq, Repr

/-- `class FileStatus(Enum)` from `get_diff.py` (lines 12-19).  The
member the source names `CHANGED` (value `'changed'`) is what the spec
calls TypeChanged. -/
inductive FileStatus where
  | added
  | removed
  | modified
  | renamed
  | copied
  | changed
  | unchanged
deriving DecidableEq, Repr

/-- The `.value` string of each enum member. -/
def FileStatus.value : FileStatus → String
  | .added => "added"
  | .removed => "removed"
  | .modified => "modified"
  | .renamed => "renamed"
  | .copied => "copied"
  | .changed => "changed"
  | .unchanged => "unchanged"

/-- Python `str()` of an enum member, as interpolated by f-strings
(`f'... status "{status}" ...'` renders e.g. `FileStatus.RENAMED`). -/
def FileStatus.pyStr : FileStatus → String
  | .added => "FileStatus.ADDED"
  | .removed => "FileStatus.REMOVED"
  | .modified => "FileStatus.MODIFIED"
  | .renamed => "FileStatus.RENAMED"
  | .copied => "FileStatus.COPIED"
  | .changed => "FileStatus.CHANGED"
  | .unchanged => "FileStatus.UNCHANGED"

/-- The module-level dict `_GIT_MAPPING` (lines 38-46): single git status
letter to enum member; lookup of any other character misses. -/
def _GIT_MAPPING (c : Char) : Option FileStatus :=
  if c = 'A' then some .added
  else if c = 'D' then some .removed
  else if c = 'M' then some .modified
  else if c = 'R' then some .renamed
  else if c = 'C' then some .copied
  else if c = 'T' then some .changed
  else if c = 'U' then some .unchanged
  else none

/-- `FileStatus.from_git` (lines 21-28).  `status = status[0]` raises
`IndexError` on the empty string; the character `'X'` and any character
outside `_GIT_MAPPING` raise `ValueError`. -/
def FileStatus.from_git (status : String) : Except PyError FileStatus :=
  match status.data with
  | [] => .error .indexError
  | c :: _ =>
    if c = 'X' then
      .error (.valueError "Encountered git status status \x22X\x22, which seems to indicate a bug in git")
    else
      match _GIT_MAPPING c with
      | none => .error (.valueError ("Unknown git status status: " ++ String.mk [c]))
      | some v => .ok v

/-- `FileStatus.from_github` (lines 30-35): `cls(status)` is an Enum
lookup by value, i.e. a case-sensitive match against the seven member
value strings; its `ValueError` is re-raised with the module's message. -/
def FileStatus.from_github (status : String) : Except PyError FileStatus :=
  if status = "added" then .ok .added
  else if status = "removed" then .ok .removed
  else if status = "modified" then .ok .modified
  else if status = "renamed" then .ok .renamed
  else if status = "copied" then .ok .copied
  else if status = "changed" then .ok .changed
  else if status = "unchanged" then .ok .unchanged
  else .error (.valueError ("Unknown GitHub API file status: " ++ status))

/-- `@dataclass class FileChange` (lines 49-53): status, current path,
optional prior path (default `None`). -/
structure FileChange where
  status : FileStatus
  path : String
  old_path : Option String := none
deriving DecidableEq, Repr

/-- Python `repr` of a list of strings, as interpolated by
`f'got "{paths}"'` (no escaping inside the paths is modelled; the
messages under test contain none). -/
def pyReprStrList (paths : List String) : String :=
  "[" ++ String.intercalate ", " (paths.map (fun s => "'" ++ s ++ "'")) ++ "]"

/-- `FileChange.from_git` (lines 55-67): parse the raw status token; for
Renamed/Copied require exactly two paths (`old_path`, then `path`); for
every other status require exactly one path; any other count raises
`ValueError`. -/
def FileChange.from_git (raw_status : String) (paths : List String) : Except PyError FileChange :=
  match FileStatus.from_git raw_status with
  | .error e => .error e
  | .ok status =>
    if status = FileStatus.renamed ∨ status = FileStatus.copied then
      match paths with
      | [old, new] => .ok { status := status, old_path := some old, path := new }
      | _ => .error (.valueError
          ("Expected two paths for status \x22" ++ status.pyStr ++ "\x22, got \x22" ++ pyReprStrList paths ++ "\x22"))
    else
      match paths with
      | [p] => .ok { status := status, path := p }
      | _ => .error (.valueError
          ("Expected one path for status \x22" ++ status.pyStr ++ "\x22, got \x22" ++ pyReprStrList paths ++ "\x22"))

/-- `FileChange.from_github` (lines 69-79): parse the raw status string;
raise `ValueError` when presence of `previous_filename` xor-mismatches
the status being Renamed/Copied; otherwise build the record with
`old_path := previous_filename`, `path := filename`. -/
def FileChange.from_github (raw_status : String) (filename : String)
    (previous_filename : Option String := none) : Except PyError FileChange :=
  match FileStatus.from_github raw_status with
  | .error e => .error e
  | .ok status =>
    if previous_filename.isSome != (status == FileStatus.renamed || status == FileStatus.copied) then
      .error (.valueError
        ("While handling file \x22" ++ filename ++ "\x22\n" ++
         "Expected " ++ (if previous_filename.isNone then "" else "no") ++
         " previous filename for status \x22" ++ status.value ++ "\x22"))
    else
      .ok { status := status, old_path := previous_filename, path := filename }

/-- Split a character list at every occurrence of `sep`, keeping empty
segments — the semantics of Python `str.split(sep)` on the characters. -/
def splitCharList (sep : Char) : List Char → List (List Char)
  | [] => [[]]
  | c :: cs =>
    match splitCharList sep cs with
    | [] => [[c]]
    | h :: t => if c = sep then [] :: h :: t else (c :: h) :: t

/-- Python `str.split(sep)` for a single-character separator. -/
def pySplit (sep : Char) (s : String) : List String :=
  (splitCharList sep s.data).map String.mk

/-- Python `cmd_output.splitlines()` for `\n`-separated text (the git
diff output parsed here never contains the exotic line terminators on
which `splitlines` differs from splitting at `\n`; a lone trailing
newline only differs by a trailing empty line, which the parser skips
as blank anyway). -/
def pySplitlines (s : String) : List String :=
  pySplit '\n' s

/-- `not line.strip()`: a line is blank when every character is
whitespace, i.e. Python `line.strip()` is falsy and the parser's
`if line.strip():` guard skips the line. -/
def isBlank (line : String) : Bool :=
  line.data.all Char.isWhitespace

/-- The parse loop of `get_modified_files_local` (lines 120-126):
for each non-blank line, `status, filename = line.split('\t', 1)` then
`filename.split('\t')` — together the full tab-split, whose head is the
status token and whose tail is the path list.  A line without a tab makes
the tuple unpacking raise `ValueError`; the first failure aborts the
loop. -/
def parse_diff_lines : List String → Except PyError (List FileChange)
  | [] => .ok []
  | line :: rest =>
    if isBlank line then parse_diff_lines rest
    else
      match pySplit '\t' line with
      | [] => .error (.valueError "not enough values to unpack (expected 2, got 1)")
      | [_] => .error (.valueError "not enough values to unpack (expected 2, got 1)")
      | status :: paths =>
        match FileChange.from_git status paths with
        | .error e => .error e
        | .ok fc =>
          match parse_diff_lines rest with
          | .error e => .error e
          | .ok fcs => .ok (fc :: fcs)

/-- `get_modified_files_local` (lines 112-128), with the `git diff`
subprocess treated as a black box: `cmd_output` is its (already
stripped) stdout.  A `ValueError` from the parse loop is re-raised as
`RuntimeError` with the branch named in the message. -/
def get_modified_files_local (branch_local : String) (cmd_output : String) :
    Except PyError (List FileChange) :=
  match parse_diff_lines (pySplitlines cmd_output) with
  | .error (.valueError m) =>
    .error (.runtimeError
      ("Failed to parse `git diff` output for branch \x22" ++ branch_local ++ "\x22\n" ++ m))
  | r => r

/-- One element of the `files` array of the GitHub compare response:
`item['status']`, `item['filename']`, `item.get('previous_filename')`. -/
structure GithubFile where
  status : String
  filename : String
  previous_filename : Option String := none
deriving DecidableEq, Repr

/-- The decoded JSON body of the compare request: its `status` string
and its `files` array (the only keys `get_modified_files_remote`
reads from it after the HTTP layer). -/
structure CompareResponse where
  status : String
  files : List GithubFile
deriving DecidableEq, Repr

/-- The parse loop of `get_modified_files_remote` (lines 160-166): build
a `FileChange` from each `files` item in order; the first failure aborts
the loop. -/
def parse_github_files : List GithubFile → Except PyError (List FileChange)
  | [] => .ok []
  | item :: rest =>
    match FileChange.from_github item.status item.filename item.previous_filename with
    | .error e => .error e
    | .ok fc =>
      match parse_github_files rest with
      | .error e => .error e
      | .ok fcs => .ok (fc :: fcs)

/-- `get_modified_files_remote` (lines 131-170), with the two HTTP calls
treated as black boxes: `response_data` is the decoded compare response.
`assert response_data['status'] == 'ahead'` raises `AssertionError`
before any `files` item is looked at; afterwards a `ValueError` from the
parse loop is re-raised as `RuntimeError` naming the branch. -/
def get_modified_files_remote (branch_remote : String) (response_data : CompareResponse) :
    Except PyError (List FileChange) :=
  if response_data.status = "ahead" then
    match parse_github_files response_data.files with
    | .error (.valueError m) =>
      .error (.runtimeError
        ("Failed to parse GitHub API response for remote branch \x22" ++ branch_remote ++ "\x22\n" ++ m))
    | r => r
  else .error .assertionError

/-- The dict comprehension in `main` (line 229):
`branch_a_by_file = {fc.path: fc for fc in branch_a_modified_files}`.
A Python dict built by iterating left to right keeps, for each key, the
last record assigned; lookup is modelled recursively with later entries
taking precedence. -/
def branch_a_by_file (branch_a_modified_files : List FileChange) (p : String) :
    Option FileChange :=
  match branch_a_modified_files with
  | [] => none
  | fc :: rest =>
    match branch_a_by_file rest p with
    | some r => some r
    | none => if fc.path = p then some fc else none

/-- The pair printed for one conflicting path in `main` (lines 236-240):
the record from branch a's mapping and the current branch b record. -/
structure ConflictEntry where
  a_change : FileChange
  b_change : FileChange
deriving DecidableEq, Repr

/-- The conflict-detection loop of `main` (lines 234-240): iterate
`set_b` in order and, for each record whose path is a key of
`branch_a_by_file set_a`, emit the pair (printing replaced by
collecting the printed pairs). -/
def find_conflicts (set_a set_b : List FileChange) : List ConflictEntry :=
  match set_b with
  | [] => []
  | change :: rest =>
    match branch_a_by_file set_a change.path with
    | some a_change => { a_change := a_change, b_change := change } :: find_conflicts set_a rest
    | none => find_conflicts set_a rest

/-! ## Theorems -/

/-- Claim C2: every valid single-letter local status token maps to the
documented variant (A Added, D Removed, M Modified, R Renamed, C Copied,
T TypeChanged, U Unchanged), and every other single letter — the reserved
bug-indicator letter X included — fails with the UnrecognizedStatus
`ValueError` instead of returning a variant. -/
theorem from_git_single_letter_mapping :
    FileStatus.from_git "A" = .ok .added
  ∧ FileStatus.from_git "D" = .ok .removed
  ∧ FileStatus.from_git "M" = .ok .modified
  ∧ FileStatus.from_git "R" = .ok .renamed
  ∧ FileStatus.from_git "C" = .ok .copied
  ∧ FileStatus.from_git "T" = .ok .changed
  ∧ FileStatus.from_git "U" = .ok .unchanged
  ∧ (∀ c : Char, c ∉ (['A', 'D', 'M', 'R', 'C', 'T', 'U'] : List Char) →
      ∃ msg, FileStatus.from_git (String.mk [c]) = .error (.valueError msg)) := by
  refine ⟨by decide, by decide, by decide, by decide, by decide, by decide, by decide, ?_⟩
  intro c hc
  simp only [List.mem_cons, List.not_mem_nil, or_false] at hc
  push_neg at hc
  obtain ⟨h1, h2, h3, h4, h5, h6, h7⟩ := hc
  by_cases hx : c = 'X'
  · subst hx
    exact ⟨_, rfl⟩
  · exact ⟨"Unknown git status status: " ++ String.mk [c],
      by simp [FileStatus.from_git, _GIT_MAPPING, hx, h1, h2, h3, h4, h5, h6, h7]⟩

/-- Witness for C2 at the reserved letter X. -/
theorem from_git_single_letter_mapping_witness :
    ∃ msg, FileStatus.from_git (String.mk ['X']) = .error (.valueError msg) :=
  from_git_single_letter_mapping.2.2.2.2.2.2.2 'X' (by decide)

/-- Claim C8: the remote status parser maps exactly the seven literal
strings case-sensitively (with "changed" mapping to the TypeChanged
variant) and fails with the UnrecognizedStatus `ValueError` for every
other string. -/
theorem from_github_status_mapping :
    FileStatus.from_github "added" = .ok .added
  ∧ FileStatus.from_github "removed" = .ok .removed
  ∧ FileStatus.from_github "modified" = .ok .modified
  ∧ FileStatus.from_github "renamed" = .ok .renamed
  ∧ FileStatus.from_github "copied" = .ok .copied
  ∧ FileStatus.from_github "changed" = .ok .changed
  ∧ FileStatus.from_github "unchanged" = .ok .unchanged
  ∧ (∀ s : String,
      s ∉ (["added", "removed", "modified", "renamed", "copied", "changed", "unchanged"] : List String) →
      FileStatus.from_github s = .error (.valueError ("Unknown GitHub API file status: " ++ s))) := by
  refine ⟨rfl, rfl, rfl, rfl, rfl, rfl, rfl, ?_⟩
  intro s hs
  simp only [List.mem_cons, List.not_mem_nil, or_false] at hs
  push_neg at hs
  obtain ⟨h1, h2, h3, h4, h5, h6, h7⟩ := hs
  simp [FileStatus.from_github, h1, h2, h3, h4, h5, h6, h7]

/-- Witness for C8 at the case variant "Added". -/
theorem from_github_status_mapping_witness :
    FileStatus.from_github "Added" = .error (.valueError ("Unknown GitHub API file status: " ++ "Added")) :=
  from_github_status_mapping.2.2.2.2.2.2.2 "Added" (by decide)

/-- Claim C9 (implicit): the local status parser looks only at the first
character of the token — any two tokens sharing a first character parse
identically, a token whose first character has a `_GIT_MAPPING` entry
parses to that entry whatever the remaining characters are, and in
particular "M100" and "Mxyz" both parse as Modified. -/
theorem from_git_uses_first_char_only :
    (∀ (c : Char) (rest1 rest2 : List Char),
        FileStatus.from_git (String.mk (c :: rest1)) = FileStatus.from_git (String.mk (c :: rest2)))
  ∧ (∀ (c : Char) (rest : List Char) (v : FileStatus), _GIT_MAPPING c = some v →
        FileStatus.from_git (String.mk (c :: rest)) = .ok v)
  ∧ FileStatus.from_git "M100" = .ok .modified
  ∧ FileStatus.from_git "Mxyz" = .ok .modified := by
  refine ⟨?_, ?_, by decide, by decide⟩
  · intro c rest1 rest2
    rfl
  · intro c rest v hv
    by_cases hx : c = 'X'
    · subst hx
      simp [_GIT_MAPPING] at hv
    · simp [FileStatus.from_git, hx, hv]

/-- Witness for C9 at the token "M100". -/
theorem from_git_uses_first_char_only_witness :
    FileStatus.from_git (String.mk ['M', '1', '0', '0']) = .ok FileStatus.modified :=
  from_git_uses_first_char_only.2.1 'M' ['1', '0', '0'] FileStatus.modified (by decide)

/-- Claim C10 (implicit): on the empty token, `status[0]` raises
`IndexError` before the `ValueError` branches are reached, so
`FileStatus.from_git` does not fail with the documented
UnrecognizedStatus error there. -/
theorem from_git_empty_token :
    FileStatus.from_git "" = .error .indexError := rfl

/-- Claim C5: for a raw token whose status parses, local construction
with a Renamed/Copied status succeeds exactly on two paths (first is
`old_path`, second is `path`) and raises the MalformedRecord
`ValueError` on any other count; with any other status it succeeds
exactly on one path (assigned to `path`, `old_path` absent) and raises
the MalformedRecord `ValueError` on any other count. -/
theorem from_git_arity (raw : String) (st : FileStatus) (paths : List String)
    (h : FileStatus.from_git raw = .ok st) :
    ((st = FileStatus.renamed ∨ st = FileStatus.copied) →
        (∀ old new, paths = [old, new] →
            FileChange.from_git raw paths = .ok { status := st, path := new, old_path := some old })
      ∧ ((¬ ∃ old new, paths = [old, new]) →
          FileChange.from_git raw paths = .error (.valueError
            ("Expected two paths for status \x22" ++ st.pyStr ++ "\x22, got \x22" ++
              pyReprStrList paths ++ "\x22"))))
  ∧ (¬ (st = FileStatus.renamed ∨ st = FileStatus.copied) →
        (∀ p, paths = [p] →
            FileChange.from_git raw paths = .ok { status := st, path := p, old_path := none })
      ∧ ((¬ ∃ p, paths = [p]) →
          FileChange.from_git raw paths = .error (.valueError
            ("Expected one path for status \x22" ++ st.pyStr ++ "\x22, got \x22" ++
              pyReprStrList paths ++ "\x22")))) := by
  constructor
  · intro hrc
    constructor
    · rintro old new rfl
      simp [FileChange.from_git, h, hrc]
    · intro hne
      rcases paths with _ | ⟨a, _ | ⟨b, _ | ⟨c, rest⟩⟩⟩
      · simp [FileChange.from_git, h, hrc]
      · simp [FileChange.from_git, h, hrc]
      · exact absurd ⟨a, b, rfl⟩ hne
      · simp [FileChange.from_git, h, hrc]
  · intro hrc
    constructor
    · rintro p rfl
      simp [FileChange.from_git, h, hrc]
    · intro hne
      rcases paths with _ | ⟨a, _ | ⟨b, rest⟩⟩
      · simp [FileChange.from_git, h, hrc]
      · exact absurd ⟨a, rfl⟩ hne
      · simp [FileChange.from_git, h, hrc]

/-- Witness for C5: a two-path rename succeeds and a two-path modify
fails. -/
theorem from_git_arity_witness :
    FileChange.from_git "R" ["old.txt", "new.txt"]
      = .ok { status := FileStatus.renamed, path := "new.txt", old_path := some "old.txt" }
  ∧ FileChange.from_git "M" ["a.txt", "b.txt"]
      = .error (.valueError
          ("Expected one path for status \x22" ++ FileStatus.modified.pyStr ++ "\x22, got \x22" ++
            pyReprStrList ["a.txt", "b.txt"] ++ "\x22")) :=
  ⟨((from_git_arity "R" FileStatus.renamed ["old.txt", "new.txt"] (by decide)).1
      (Or.inl rfl)).1 "old.txt" "new.txt" rfl,
   ((from_git_arity "M" FileStatus.modified ["a.txt", "b.txt"] (by decide)).2
      (by rintro (h | h) <;> cases h)).2
      (by rintro ⟨p, hp⟩; cases hp)⟩

/-- Claim C6: for a raw status string that parses, remote construction
succeeds exactly when presence of the previous filename matches the
status being Renamed/Copied, and on violation fails with the
InconsistentRenameInfo `ValueError`, whose message contains both the
offending filename and the status value. -/
theorem from_github_rename_consistency (raw filename : String) (prev : Option String)
    (st : FileStatus) (h : FileStatus.from_github raw = .ok st) :
    (FileChange.from_github raw filename prev
        = .ok { status := st, path := filename, old_path := prev }
      ↔ (prev.isSome = true ↔ (st = FileStatus.renamed ∨ st = FileStatus.copied)))
  ∧ (¬ (prev.isSome = true ↔ (st = FileStatus.renamed ∨ st = FileStatus.copied)) →
      ∃ s1 s2 s3, FileChange.from_github raw filename prev
        = .error (.valueError (s1 ++ filename ++ s2 ++ st.value ++ s3))) := by
  by_cases hrc : st = FileStatus.renamed ∨ st = FileStatus.copied
  · have hb : (st == FileStatus.renamed || st == FileStatus.copied) = true := by
      rcases hrc with h' | h' <;> simp [h']
    rcases prev with _ | x
    · constructor
      · simp only [FileChange.from_github, h, hb]
        simp [hrc]
      · intro _
        refine ⟨"While handling file \x22",
          "\x22\n" ++ ("Expected " ++ ("" ++ " previous filename for status \x22")), "\x22", ?_⟩
        simp only [FileChange.from_github, h, hb]
        simp [String.append_assoc]
    · constructor
      · simp only [FileChange.from_github, h, hb]
        simp [hrc]
      · intro hn
        exact absurd (by simp [hrc]) hn
  · have hb : (st == FileStatus.renamed || st == FileStatus.copied) = false := by
      push_neg at hrc
      simp [hrc.1, hrc.2]
    rcases prev with _ | x
    · constructor
      · simp only [FileChange.from_github, h, hb]
        simp [hrc]
      · intro hn
        exact absurd (by simp [hrc]) hn
    · constructor
      · simp only [FileChange.from_github, h, hb]
        simp [hrc]
      · intro _
        refine ⟨"While handling file \x22",
          "\x22\n" ++ ("Expected " ++ ("no" ++ " previous filename for status \x22")), "\x22", ?_⟩
        simp only [FileChange.from_github, h, hb]
        simp [String.append_assoc]

/-- Witness for C6: a rename with a previous filename succeeds; a rename
without one fails with a message naming the file and the status. -/
theorem from_github_rename_consistency_witness :
    FileChange.from_github "renamed" "file.txt" (some "old.txt")
      = .ok { status := FileStatus.renamed, path := "file.txt", old_path := some "old.txt" }
  ∧ ∃ s1 s2 s3, FileChange.from_github "renamed" "file.txt" none
      = .error (.valueError (s1 ++ "file.txt" ++ s2 ++ FileStatus.renamed.value ++ s3)) :=
  ⟨(from_github_rename_consistency "renamed" "file.txt" (some "old.txt") FileStatus.renamed
      (by decide)).1.mpr (by simp),
   (from_github_rename_consistency "renamed" "file.txt" none FileStatus.renamed
      (by decide)).2 (by simp)⟩

/-- Claim C1 counterexample: a local rename whose two paths are equal is
accepted, producing a record with status Renamed whose `old_path` equals
its `path` — the claimed distinctness is not enforced. -/
theorem from_git_rename_identical_paths :
    ∃ fc : FileChange, FileChange.from_git "R" ["a.txt", "a.txt"] = .ok fc
      ∧ (fc.status = FileStatus.renamed ∨ fc.status = FileStatus.copied)
      ∧ fc.old_path = some fc.path :=
  ⟨{ status := .renamed, path := "a.txt", old_path := some "a.txt" },
    by decide, Or.inl rfl, rfl⟩

/-- Claim C1 as amended: every record built by either constructor has
`old_path` present if and only if its status is Renamed or Copied
(distinctness of `old_path` from `path` is not enforced). -/
theorem old_path_presence :
    (∀ (raw : String) (paths : List String) (fc : FileChange),
        FileChange.from_git raw paths = .ok fc →
        ((fc.status = FileStatus.renamed ∨ fc.status = FileStatus.copied)
          ↔ fc.old_path.isSome = true))
  ∧ (∀ (raw filename : String) (prev : Option String) (fc : FileChange),
        FileChange.from_github raw filename prev = .ok fc →
        ((fc.status = FileStatus.renamed ∨ fc.status = FileStatus.copied)
          ↔ fc.old_path.isSome = true)) := by
  constructor
  · intro raw paths fc h
    cases hs : FileStatus.from_git raw with
    | error e => simp [FileChange.from_git, hs] at h
    | ok st =>
      simp only [FileChange.from_git, hs] at h
      by_cases hrc : st = FileStatus.renamed ∨ st = FileStatus.copied
      · rw [if_pos hrc] at h
        rcases paths with _ | ⟨a, _ | ⟨b, _ | ⟨c, rest⟩⟩⟩
        · simp at h
        · simp at h
        · simp only [Except.ok.injEq] at h
          subst h
          simpa using hrc
        · simp at h
      · rw [if_neg hrc] at h
        rcases paths with _ | ⟨a, _ | ⟨b, rest⟩⟩
        · simp at h
        · simp only [Except.ok.injEq] at h
          subst h
          simpa using hrc
        · simp at h
  · intro raw filename prev fc h
    cases hs : FileStatus.from_github raw with
    | error e => simp [FileChange.from_github, hs] at h
    | ok st =>
      simp only [FileChange.from_github, hs] at h
      by_cases hcond : (prev.isSome != (st == FileStatus.renamed || st == FileStatus.copied)) = true
      · rw [if_pos hcond] at h
        simp at h
      · rw [if_neg hcond] at h
        simp only [Except.ok.injEq] at h
        subst h
        simp only [Bool.not_eq_true, bne_eq_false_iff_eq] at hcond
        simp [hcond, Bool.or_eq_true, beq_iff_eq]

/-- Witness for C1's amended theorem at a concrete rename. -/
theorem old_path_presence_witness :
    (({ status := FileStatus.renamed, path := "new.txt", old_path := some "old.txt" }
        : FileChange).status = FileStatus.renamed
      ∨ ({ status := FileStatus.renamed, path := "new.txt", old_path := some "old.txt" }
          : FileChange).status = FileStatus.copied)
    ↔ ({ status := FileStatus.renamed, path := "new.txt", old_path := some "old.txt" }
        : FileChange).old_path.isSome = true :=
  old_path_presence.1 "R" ["old.txt", "new.txt"] _ (by decide)

/-- Claim C4: a compare response whose status is not "ahead" fails with
the UnexpectedCompareStatus failure (the Python `assert`'s
`AssertionError`) whatever its `files` array contains — no file entry is
parsed — while an "ahead" response has its files parsed. -/
theorem remote_compare_status_guard :
    (∀ (branch_remote s : String) (files : List GithubFile), s ≠ "ahead" →
        get_modified_files_remote branch_remote { status := s, files := files }
          = .error .assertionError)
  ∧ get_modified_files_remote "branchA"
      { status := "ahead", files := [ { status := "added", filename := "file.txt" } ] }
      = .ok [ { status := FileStatus.added, path := "file.txt" } ] := by
  constructor
  · intro branch_remote s files hs
    simp [get_modified_files_remote, hs]
  · decide

/-- Witness for C4: a "behind" response with an unparsable file entry
still fails with the assertion, untouched by parsing. -/
theorem remote_compare_status_guard_witness :
    get_modified_files_remote "branchA"
      { status := "behind", files := [ { status := "bogus", filename := "f.txt" } ] }
      = .error .assertionError :=
  remote_compare_status_guard.1 "branchA" "behind"
    [ { status := "bogus", filename := "f.txt" } ] (by decide)

/-- Claim C7: the documented three-line diff output parses to exactly the
three documented records in order (the similarity suffix on `R100`
stripped by first-character matching), and a blank line anywhere in the
line sequence is skipped — removing it does not change the parse
result. -/
theorem local_diff_scenario :
    get_modified_files_local "branchB" "M\tfile.txt\nA\tnewfile.txt\nR100\told.txt\tnew.txt"
      = .ok [ { status := FileStatus.modified, path := "file.txt" },
              { status := FileStatus.added, path := "newfile.txt" },
              { status := FileStatus.renamed, path := "new.txt", old_path := some "old.txt" } ]
  ∧ (∀ (pre : List String) (blank : String) (post : List String), isBlank blank = true →
      parse_diff_lines (pre ++ blank :: post) = parse_diff_lines (pre ++ post)) := by
  refine ⟨by decide, ?_⟩
  intro pre blank post hb
  induction pre with
  | nil => simp [parse_diff_lines, hb]
  | cons l pre ih =>
    simp only [List.cons_append, parse_diff_lines, List.append_eq, ih]

/-- Witness for C7's blank-line part at a concrete whitespace line. -/
theorem local_diff_scenario_witness :
    parse_diff_lines ["M\tfile.txt", " "] = parse_diff_lines ["M\tfile.txt"] :=
  local_diff_scenario.2 ["M\tfile.txt"] " " [] (by decide)

theorem find_conflicts_map_b (set_a set_b : List FileChange) :
    (find_conflicts set_a set_b).map ConflictEntry.b_change
      = set_b.filter (fun c => (branch_a_by_file set_a c.path).isSome) := by
  induction set_b with
  | nil => rfl
  | cons c rest ih =>
    cases h : branch_a_by_file set_a c.path with
    | none => simp [find_conflicts, List.filter_cons, h, ih]
    | some x => simp [find_conflicts, List.filter_cons, h, ih]

theorem find_conflicts_pairs (set_a set_b : List FileChange) (e : ConflictEntry)
    (he : e ∈ find_conflicts set_a set_b) :
    branch_a_by_file set_a e.b_change.path = some e.a_change := by
  induction set_b with
  | nil => simp [find_conflicts] at he
  | cons c rest ih =>
    cases h : branch_a_by_file set_a c.path with
    | none =>
      rw [find_conflicts, h] at he
      exact ih he
    | some x =>
      rw [find_conflicts, h] at he
      rcases List.mem_cons.mp he with rfl | hmem
      · simpa using h
      · exact ih hmem

theorem find_conflicts_countP (set_a set_b : List FileChange) (p : String) :
    (find_conflicts set_a set_b).countP (fun e => e.b_change.path == p)
      = if (branch_a_by_file set_a p).isSome
          then set_b.countP (fun c => c.path == p) else 0 := by
  induction set_b with
  | nil => simp [find_conflicts]
  | cons c rest ih =>
    by_cases hp : c.path = p
    · subst hp
      cases h : branch_a_by_file set_a c.path with
      | none => simp [find_conflicts, h, List.countP_cons, ih]
      | some x => simp [find_conflicts, h, List.countP_cons, ih]
    · cases h : branch_a_by_file set_a c.path with
      | none => simp [find_conflicts, h, List.countP_cons, hp, ih]
      | some x => simp [find_conflicts, h, List.countP_cons, hp, ih]

/-- Claim C3: the conflict loop follows `set_b`'s order — the second
components of the output are exactly the `set_b` records whose path is a
key of `set_a`'s mapping, in `set_b`'s order; each emitted entry pairs
the mapping's record for that path with the `set_b` record; for any
path, the number of entries is the number of its occurrences in `set_b`
when it is a key of `set_a`'s mapping (so exactly once for a path
present once in each set) and zero when it is not; and the spec's
concrete example produces exactly its one documented pairing. -/
theorem find_conflicts_spec :
    (∀ set_a set_b, (find_conflicts set_a set_b).map ConflictEntry.b_change
        = set_b.filter (fun c => (branch_a_by_file set_a c.path).isSome))
  ∧ (∀ set_a set_b (e : ConflictEntry), e ∈ find_conflicts set_a set_b →
        branch_a_by_file set_a e.b_change.path = some e.a_change)
  ∧ (∀ set_a set_b (p : String),
        (find_conflicts set_a set_b).countP (fun e => e.b_change.path == p)
          = if (branch_a_by_file set_a p).isSome
              then set_b.countP (fun c => c.path == p) else 0)
  ∧ find_conflicts [ { status := FileStatus.modified, path := "x.txt" } ]
        [ { status := FileStatus.added, path := "x.txt" },
          { status := FileStatus.removed, path := "y.txt" } ]
      = [ { a_change := { status := FileStatus.modified, path := "x.txt" },
            b_change := { status := FileStatus.added, path := "x.txt" } } ] :=
  ⟨find_conflicts_map_b, find_conflicts_pairs, find_conflicts_countP, by decide⟩

/-- Witness for C3's pairing part at the spec's concrete example. -/
theorem find_conflicts_spec_witness :
    branch_a_by_file [ { status := FileStatus.modified, path := "x.txt" } ] "x.txt"
      = some { status := FileStatus.modified, path := "x.txt" } :=
  find_conflicts_spec.2.1
    [ { status := FileStatus.modified, path := "x.txt" } ]
    [ { status := FileStatus.added, path := "x.txt" },
      { status := FileStatus.removed, path := "y.txt" } ]
    { a_change := { status := FileStatus.modified, path := "x.txt" },
      b_change := { status := FileStatus.added, path := "x.txt" } }
    (by decide)

end GetDiff
